import Mathlib

/-!
Shallow embedding of the Render-Deployment-AI-Assistant-Kanboard repository
(`src/services/ai_services.py` and `src/ai_task_creator.py`) and proofs about
the claims of its specification.

Python strings are modelled as `List Char` (`PyStr`); Python dictionaries
parsed from JSON are modelled as ordered association lists over a JSON value
type (`Json`, `Dict`).  Effectful library calls (the Gemini provider,
`json.loads`, `datetime.now`, `uuid.uuid4`) are modelled as explicit
parameters/oracles, and the observable side effects of `estimate_task`
(prompt construction, network attempts, `time.sleep`) are returned as an
explicit trace of `Effect`s.
-/

/-! ## Python string primitives -/

/-- Python `str` modelled as a list of characters. -/
abbrev PyStr := List Char

/-- The characters stripped by Python's `str.strip()` with no argument
(ASCII whitespace; the source only ever strips ASCII payloads). -/
def pyIsSpace (c : Char) : Bool :=
  c = ' ' || c = '\t' || c = '\n' || c = '\r' || c = '\x0b' || c = '\x0c'

/-- Python `str.strip()`: remove leading and trailing whitespace. -/
def pyStrip (s : PyStr) : PyStr :=
  (s.dropWhile pyIsSpace).rdropWhile pyIsSpace

/-- Helper for `pySplit`: accumulates the current word (reversed). -/
def pySplitAux : PyStr → PyStr → List PyStr
  | [], cur => if cur.isEmpty then [] else [cur.reverse]
  | c :: rest, cur =>
    if pyIsSpace c then
      if cur.isEmpty then pySplitAux rest [] else cur.reverse :: pySplitAux rest []
    else
      pySplitAux rest (c :: cur)

/-- Python `str.split()` with no argument: split on runs of whitespace,
producing no empty words. -/
def pySplit (s : PyStr) : List PyStr := pySplitAux s []

/-- Python `" ".join(words)`. -/
def pyJoinSpace (ws : List PyStr) : PyStr := List.intercalate [' '] ws

/-- Python `str.capitalize()`: first character uppercased, all remaining
characters lowercased. -/
def pyCapitalize : PyStr → PyStr
  | [] => []
  | c :: rest => c.toUpper :: rest.map Char.toLower

/-- Python `task.replace("\n", " ")` (single-character pattern). -/
def pyReplaceNewline (s : PyStr) : PyStr :=
  s.map fun c => if c = '\n' then ' ' else c

/-- Python slicing `s[:n]`. -/
def pyTake (n : Nat) (s : PyStr) : PyStr := s.take n

/-- Python slicing `s[n:]`. -/
def pyDrop (n : Nat) (s : PyStr) : PyStr := s.drop n

/-- Python slicing `s[:-n]` (for `n ≤ len s`; drop the last `n` characters). -/
def pyDropRight (n : Nat) (s : PyStr) : PyStr := s.take (s.length - n)

/-- Python `str.startswith`. -/
def pyStartsWith (s p : PyStr) : Bool := p.isPrefixOf s

/-- Python `str.endswith`. -/
def pyEndsWith (s p : PyStr) : Bool := p.isSuffixOf s

/-- Python `pat in s` for strings (substring containment): some suffix of
`s` has `pat` as a prefix. -/
def pyContains : PyStr → PyStr → Bool
  | [], pat => pat.isEmpty
  | s@(_ :: rest), pat => pat.isPrefixOf s || pyContains rest pat

/-! ## JSON values and dictionaries

The dictionaries produced by `json.loads` and consumed/produced by the
service are modelled as insertion-ordered association lists, matching
Python `dict` semantics for the operations the source uses
(`get`, `in`, item assignment). -/

/-- A JSON value as produced by `json.loads` (numbers restricted to
integers; no claim depends on float baggage). -/
inductive Json where
  | str : PyStr → Json
  | num : Int → Json
  | bool : Bool → Json
  | null : Json
  | arr : List Json → Json
  | obj : List (String × Json) → Json

/-- A Python dict with string keys and JSON values, insertion ordered. -/
abbrev Dict := List (String × Json)

/-- Python `d.get(key)` / `d[key]`. -/
def dget : Dict → String → Option Json
  | [], _ => none
  | (k, v) :: rest, key => if key = k then some v else dget rest key

/-- Python `d[key] = v`: replace in place, preserving insertion order;
append if the key is absent. -/
def dset : Dict → String → Json → Dict
  | [], key, v => [(key, v)]
  | (k, w) :: rest, key, v =>
    if key = k then (k, v) :: rest else (k, w) :: dset rest key v

/-- Python `d.get(key, default)`. -/
def dgetD (d : Dict) (key : String) (default : Json) : Json :=
  (dget d key).getD default

/-- Python truthiness of `d.get(key)` (`None` and the empty/zero values
are falsy). -/
def jsonTruthy : Option Json → Bool
  | none => false
  | some (Json.bool b) => b
  | some (Json.str s) => !s.isEmpty
  | some (Json.num n) => decide (n ≠ 0)
  | some Json.null => false
  | some (Json.arr l) => !l.isEmpty
  | some (Json.obj l) => !l.isEmpty

/-! ## `AIEstimator._clean_response` (src/services/ai_services.py:161-169) -/

/-- `_clean_response`: strip a leading triple-backtick fence (tagged
`json` or untagged) and a trailing triple-backtick fence, then strip
surrounding whitespace. -/
def clean_response (s0 : PyStr) : PyStr :=
  let s1 := if pyStartsWith s0 "```json".toList then pyDrop 7 s0 else s0
  let s2 := if pyStartsWith s1 "```".toList then pyDrop 3 s1 else s1
  let s3 := if pyEndsWith s2 "```".toList then pyDropRight 3 s2 else s2
  pyStrip s3

/-! ## `AIEstimator._validate_and_format_response` (ai_services.py:171-188) -/

/-- One step of `_validate_and_format_response`: if `key` is present and
its value is a bare string, wrap it into a one-element list; otherwise
leave the dict unchanged. -/
def wrapIfStr (d : Dict) (key : String) : Dict :=
  match dget d key with
  | some (Json.str s) => dset d key (Json.arr [Json.str s])
  | _ => d

/-- `_validate_and_format_response`: ensure each of `required_access`,
`dependencies`, `suggested_labels` that is a bare string becomes a
one-element list. -/
def validate_and_format_response (data : Dict) : Dict :=
  wrapIfStr (wrapIfStr (wrapIfStr data "required_access") "dependencies") "suggested_labels"

/-! ## `AIEstimator._get_fallback_response` (ai_services.py:190-227)

`datetime.now().isoformat()` is an effect, modelled as the explicit
parameter `now`. -/

/-- The canned `reasoning` narrative of the fallback response,
referencing the first 100 characters of the task. -/
def fallbackReasoning (task : PyStr) : PyStr :=
  "Phase 1: Technical Breakdown\nOverview: Manual technical analysis required for '".toList
    ++ pyTake 100 task
    ++ "...'. Standard development workflow with modern tech stack. Requires environment setup, implementation, and deployment phases.\n\nPhase 1: Requirements Analysis and Setup\n- Review task requirements and define scope\n- Set up development environment and tools\n- Create project structure and initial configuration\n\nPhase 2: Core Implementation\n- Implement main functionality according to specifications\n- Write comprehensive unit and integration tests\n- Conduct code review and refactoring\n\nPhase 3: Testing and Deployment\n- Perform end-to-end testing in staging environment\n- Create deployment documentation and runbooks\n- Deploy to production with monitoring setup".toList

/-- `_get_fallback_response(task_description, error=None)`.  The Python
default `error or "AI service temporarily unavailable"` treats both
`None` and the empty string as absent. -/
def get_fallback_response (task : PyStr) (error : Option PyStr) (now : PyStr) : Dict :=
  [ ("success", Json.bool false),
    ("error", Json.str (match error with
      | none => "AI service temporarily unavailable".toList
      | some e => if e.isEmpty then "AI service temporarily unavailable".toList else e)),
    ("title", Json.str ("Analysis: ".toList ++ pyTake 40 task ++ "...".toList)),
    ("estimated_time", Json.str "1-2 weeks".toList),
    ("priority", Json.str "Medium".toList),
    ("complexity_level", Json.str "Medium".toList),
    ("dependencies", Json.arr [Json.str "Initial requirements gathering".toList,
                               Json.str "Technical review".toList]),
    ("required_access", Json.arr [Json.str "Development Environment Access".toList,
                                  Json.str "Version Control System (GitHub/GitLab)".toList,
                                  Json.str "Testing Environment".toList]),
    ("suggested_labels", Json.arr [Json.str "feature".toList,
                                   Json.str "development".toList,
                                   Json.str "needs-review".toList]),
    ("reasoning", Json.str (fallbackReasoning task)),
    ("fallback", Json.bool true),
    ("timestamp", Json.str now) ]

/-! ## `AIEstimator.__init__` (ai_services.py:17-34) and `estimate_task`
(ai_services.py:36-106)

The Gemini client is an external effect.  Its behaviour on the n-th
attempt is an oracle `provider : Nat → ProviderResult`; `json.loads` is
an oracle `parse : PyStr → Except PyStr Json` (the `error` carrying
`str(je)` of the raised `JSONDecodeError`); `time.sleep` and the network
attempts are recorded in a trace of `Effect`s. -/

/-- Outcome of one `client.models.generate_content` call: either the
response text (`response.text`) or the text of the raised exception. -/
inductive ProviderResult where
  | ok : PyStr → ProviderResult
  | err : PyStr → ProviderResult

/-- Observable side effects of one `estimate_task` call. -/
inductive Effect where
  | promptBuilt : Effect
  | networkCall : Nat → Effect
  | sleep : Nat → Effect
deriving DecidableEq, Repr

/-- `__init__`: availability is decided once, from the `GEMINI_API_KEY`
environment variable (`None` or empty ⇒ unavailable) and the success of
client construction. -/
def estimator_init (api_key : Option PyStr) (client_init_ok : Bool) : Bool :=
  match api_key with
  | none => false
  | some k => if k.isEmpty then false else client_init_ok

/-- The transient-failure test of the retry loop (ai_services.py:71). -/
def isTransient (e : PyStr) : Bool :=
  pyContains e "503".toList || pyContains e "UNAVAILABLE".toList
    || pyContains e "429".toList

/-- Outcome of the retry loop (ai_services.py:59-81). -/
inductive LoopOutcome where
  | gotResponse : PyStr → LoopOutcome
  | returnFallback : PyStr → LoopOutcome
  | unbound : LoopOutcome

/-- The `for attempt in range(max_retries)` retry loop, recursing on the
number of remaining iterations.  `attempt` is the current loop index and
`delay` the current `retry_delay`.  `unbound` models falling off the end
of the loop without a `break` (unreachable when starting from
`remaining = max_retries`, proved below): `response` would be unbound and
the outer handler would produce the fallback. -/
def retryLoop (provider : Nat → ProviderResult) (max_retries : Nat) :
    Nat → Nat → Nat → LoopOutcome × List Effect
  | 0, _, _ => (LoopOutcome.unbound, [])
  | remaining + 1, attempt, delay =>
    match provider attempt with
    | ProviderResult.ok text => (LoopOutcome.gotResponse text, [Effect.networkCall attempt])
    | ProviderResult.err e =>
      if isTransient e then
        if attempt < max_retries - 1 then
          let r := retryLoop provider max_retries remaining (attempt + 1) (delay * 2)
          (r.1, Effect.networkCall attempt :: Effect.sleep delay :: r.2)
        else
          (LoopOutcome.returnFallback ("API Error: ".toList ++ e), [Effect.networkCall attempt])
      else
        (LoopOutcome.returnFallback ("API Error: ".toList ++ e), [Effect.networkCall attempt])

/-- The error note of the path where `json.loads` returned a non-dict
value: the subsequent `'required_access' in data` / item accesses raise a
`TypeError`, caught by the outer `except` (ai_services.py:104-106). -/
def typeErrorNote : PyStr :=
  "Unexpected Error: argument handling failed for non-dict JSON value".toList

/-- The error note of the unreachable loop-fell-through path, where
`response` would be unbound (`NameError` caught by the outer `except`). -/
def unboundResponseNote : PyStr :=
  "Unexpected Error: name 'response' is not defined".toList

/-- `estimate_task(task_description)`: availability gate, prompt
construction, retry loop, fence stripping, JSON parsing, normalization,
fallback on every failure path.  Returns the result dict and the trace
of observable effects. -/
def estimate_task (available : Bool) (provider : Nat → ProviderResult)
    (parse : PyStr → Except PyStr Json) (now : PyStr) (task : PyStr) :
    Dict × List Effect :=
  if !available then
    (get_fallback_response task none now, [])
  else
    match retryLoop provider 3 3 0 2 with
    | (LoopOutcome.gotResponse text, effs) =>
      match parse (clean_response (pyStrip text)) with
      | Except.ok (Json.obj fields) =>
        (dset (validate_and_format_response fields) "success" (Json.bool true),
         Effect.promptBuilt :: effs)
      | Except.ok _ =>
        (get_fallback_response task (some typeErrorNote) now, Effect.promptBuilt :: effs)
      | Except.error je =>
        (get_fallback_response task (some ("JSON Parse Error: ".toList ++ je)) now,
         Effect.promptBuilt :: effs)
    | (LoopOutcome.returnFallback note, effs) =>
      (get_fallback_response task (some note) now, Effect.promptBuilt :: effs)
    | (LoopOutcome.unbound, effs) =>
      (get_fallback_response task (some unboundResponseNote) now, Effect.promptBuilt :: effs)

/-! ## `hashlib.md5(...).hexdigest()` — full MD5 over UTF-8 bytes

`ticket_id = hashlib.md5(task_description.encode()).hexdigest()[:16]`
(ai_task_creator.py:89).  Bytes and 32-bit words are `Nat` values reduced
with `% 2^32` where overflow matters. -/

/-- UTF-8 encoding of one character (Python `str.encode()`), as byte
values. -/
def utf8Char (c : Char) : List Nat :=
  let n := c.toNat
  if n < 0x80 then [n]
  else if n < 0x800 then
    [0xC0 ||| (n >>> 6), 0x80 ||| (n &&& 0x3F)]
  else if n < 0x10000 then
    [0xE0 ||| (n >>> 12), 0x80 ||| ((n >>> 6) &&& 0x3F), 0x80 ||| (n &&& 0x3F)]
  else
    [0xF0 ||| (n >>> 18), 0x80 ||| ((n >>> 12) &&& 0x3F),
     0x80 ||| ((n >>> 6) &&& 0x3F), 0x80 ||| (n &&& 0x3F)]

/-- Python `str.encode()` (UTF-8). -/
def utf8Encode (s : PyStr) : List Nat := s.flatMap utf8Char

/-- `2^32`, the word modulus of MD5. -/
def m32 : Nat := 4294967296

/-- Left-rotation of a 32-bit word. -/
def rotl32 (x n : Nat) : Nat :=
  ((x * 2 ^ n) % m32) + ((x % m32) / 2 ^ (32 - n))

/-- Bitwise complement within 32 bits (argument below `2^32`). -/
def compl32 (x : Nat) : Nat := (m32 - 1) - x

/-- The MD5 sine-derived constant table `K`. -/
def md5K : List Nat :=
  [0xd76aa478, 0xe8c7b756, 0x242070db, 0xc1bdceee,
   0xf57c0faf, 0x4787c62a, 0xa8304613, 0xfd469501,
   0x698098d8, 0x8b44f7af, 0xffff5bb1, 0x895cd7be,
   0x6b901122, 0xfd987193, 0xa679438e, 0x49b40821,
   0xf61e2562, 0xc040b340, 0x265e5a51, 0xe9b6c7aa,
   0xd62f105d, 0x02441453, 0xd8a1e681, 0xe7d3fbc8,
   0x21e1cde6, 0xc33707d6, 0xf4d50d87, 0x455a14ed,
   0xa9e3e905, 0xfcefa3f8, 0x676f02d9, 0x8d2a4c8a,
   0xfffa3942, 0x8771f681, 0x6d9d6122, 0xfde5380c,
   0xa4beea44, 0x4bdecfa9, 0xf6bb4b60, 0xbebfbc70,
   0x289b7ec6, 0xeaa127fa, 0xd4ef3085, 0x04881d05,
   0xd9d4d039, 0xe6db99e5, 0x1fa27cf8, 0xc4ac5665,
   0xf4292244, 0x432aff97, 0xab9423a7, 0xfc93a039,
   0x655b59c3, 0x8f0ccc92, 0xffeff47d, 0x85845dd1,
   0x6fa87e4f, 0xfe2ce6e0, 0xa3014314, 0x4e0811a1,
   0xf7537e82, 0xbd3af235, 0x2ad7d2bb, 0xeb86d391]

/-- The MD5 per-round shift table `s`. -/
def md5S : List Nat :=
  [7, 12, 17, 22, 7, 12, 17, 22, 7, 12, 17, 22, 7, 12, 17, 22,
   5, 9, 14, 20, 5, 9, 14, 20, 5, 9, 14, 20, 5, 9, 14, 20,
   4, 11, 16, 23, 4, 11, 16, 23, 4, 11, 16, 23, 4, 11, 16, 23,
   6, 10, 15, 21, 6, 10, 15, 21, 6, 10, 15, 21, 6, 10, 15, 21]

/-- The running MD5 state (four 32-bit words). -/
structure Md5State where
  a : Nat
  b : Nat
  c : Nat
  d : Nat

/-- The MD5 initial state. -/
def md5Init : Md5State := ⟨0x67452301, 0xefcdab89, 0x98badcfe, 0x10325476⟩

/-- One of the 64 MD5 operations on a chunk whose 16 little-endian words
are given by `M`. -/
def md5Step (M : Nat → Nat) (st : Md5State) (i : Nat) : Md5State :=
  let f_g : Nat × Nat :=
    if i < 16 then ((st.b &&& st.c) ||| (compl32 st.b &&& st.d), i)
    else if i < 32 then ((st.d &&& st.b) ||| (compl32 st.d &&& st.c), (5 * i + 1) % 16)
    else if i < 48 then (st.b ^^^ st.c ^^^ st.d, (3 * i + 5) % 16)
    else (st.c ^^^ (st.b ||| compl32 st.d), (7 * i) % 16)
  let sum := (st.a + f_g.1 + md5K.getD i 0 + M f_g.2) % m32
  ⟨st.d, (st.b + rotl32 sum (md5S.getD i 0)) % m32, st.b, st.c⟩

/-- Little-endian 32-bit word `j` of a 64-byte chunk. -/
def leWord (chunk : List Nat) (j : Nat) : Nat :=
  chunk.getD (4 * j) 0 + 256 * chunk.getD (4 * j + 1) 0
    + 65536 * chunk.getD (4 * j + 2) 0 + 16777216 * chunk.getD (4 * j + 3) 0

/-- Process one 64-byte chunk. -/
def md5Chunk (st : Md5State) (chunk : List Nat) : Md5State :=
  let r := (List.range 64).foldl (md5Step (leWord chunk)) st
  ⟨(st.a + r.a) % m32, (st.b + r.b) % m32, (st.c + r.c) % m32, (st.d + r.d) % m32⟩

/-- Split a byte list into 64-byte chunks. -/
def chunks64 (l : List Nat) : List (List Nat) :=
  if l.isEmpty then [] else l.take 64 :: chunks64 (l.drop 64)
termination_by l.length
decreasing_by
  simp only [List.length_drop]
  cases l with
  | nil => simp_all
  | cons x xs => simp; omega

/-- Little-endian byte serialization of `n` into `w` bytes. -/
def leBytes : Nat → Nat → List Nat
  | _, 0 => []
  | n, w + 1 => (n % 256) :: leBytes (n / 256) w

/-- MD5 padding: a `0x80` byte, zeros to 56 mod 64, then the 64-bit
little-endian bit length. -/
def md5Pad (msg : List Nat) : List Nat :=
  let padZeros := (119 - msg.length % 64) % 64
  msg ++ [0x80] ++ List.replicate padZeros 0 ++ leBytes ((8 * msg.length) % 2 ^ 64) 8

/-- The 16-byte MD5 digest of a byte message. -/
def md5Digest (msg : List Nat) : List Nat :=
  let st := (chunks64 (md5Pad msg)).foldl md5Chunk md5Init
  leBytes st.a 4 ++ leBytes st.b 4 ++ leBytes st.c 4 ++ leBytes st.d 4

/-- One lowercase hexadecimal digit. -/
def hexChar (n : Nat) : Char :=
  match n with
  | 0 => '0' | 1 => '1' | 2 => '2' | 3 => '3' | 4 => '4'
  | 5 => '5' | 6 => '6' | 7 => '7' | 8 => '8' | 9 => '9'
  | 10 => 'a' | 11 => 'b' | 12 => 'c' | 13 => 'd' | 14 => 'e' | 15 => 'f'
  | _ => '0'

/-- Lowercase hexadecimal rendering of a byte list, two digits per byte
(high nibble first), as in `hexdigest()`. -/
def hexOfBytes : List Nat → PyStr
  | [] => []
  | b :: rest => hexChar (b / 16 % 16) :: hexChar (b % 16) :: hexOfBytes rest

/-- `hashlib.md5(s.encode()).hexdigest()`. -/
def md5Hexdigest (s : PyStr) : PyStr := hexOfBytes (md5Digest (utf8Encode s))

/-! ## `ai_task_creator.py` — `/api/estimate` handler and helpers -/

/-- `generate_short_title(task, max_words=6)` (ai_task_creator.py:202-213):
newlines to spaces, strip, first `max_words` whitespace-separated words
joined by single spaces, then Python `capitalize()`. -/
def generate_short_title (task : PyStr) : PyStr :=
  if task.isEmpty then "New Ticket".toList
  else
    pyCapitalize (pyJoinSpace ((pySplit (pyStrip (pyReplaceNewline task))).take 6))

/-- The title selection of the handler (ai_task_creator.py:106-111):
`raw_title.strip()` when the model supplied a string title of 3 to 6
whitespace-separated words, otherwise `generate_short_title(task)`. -/
def choose_title (raw_title : Option Json) (task : PyStr) : PyStr :=
  match raw_title with
  | some (Json.str t) =>
    if 3 ≤ (pySplit t).length ∧ (pySplit t).length ≤ 6 then pyStrip t
    else generate_short_title task
  | _ => generate_short_title task

/-- The `tags` / `access_required` / `dependencies` preparation of the
handler (ai_task_creator.py:93-103): default to `[]` when absent, wrap a
bare string into a one-element list, pass anything else through. -/
def listifyField (v : Option Json) : Json :=
  match v with
  | none => Json.arr []
  | some (Json.str s) => Json.arr [Json.str s]
  | some j => j

/-- `ticket_id = hashlib.md5(task_description.encode()).hexdigest()[:16]`
(ai_task_creator.py:89). -/
def compute_ticket_id (task : PyStr) : PyStr := pyTake 16 (md5Hexdigest task)

/-- `generate_ticket_number()` (ai_task_creator.py:46-48):
`"TKT-" + str(uuid.uuid4())[:8].upper()`.  The fresh `uuid.uuid4()`
string drawn by the call is the explicit parameter `u`. -/
def generate_ticket_number (u : PyStr) : PyStr :=
  "TKT-".toList ++ (pyTake 8 u).map Char.toUpper

/-- An HTTP response of the endpoint: status code and JSON body. -/
structure ApiResponse where
  status : Nat
  body : Dict

/-- The `/api/estimate` handler `get_ai_estimate` (ai_task_creator.py:50-150),
after `request.get_json()`: `task_raw` is `data.get('task', '')`,
`ai_response` is the value returned by `ai_estimator.estimate_task`, and
`u` the `uuid.uuid4()` string drawn by `generate_ticket_number` (unused
on the non-success paths). -/
def get_ai_estimate (task_raw : PyStr) (ai_response : Dict) (u : PyStr) : ApiResponse :=
  let task := pyStrip task_raw
  if task.isEmpty then
    ⟨400, [("success", Json.bool false),
           ("error", Json.str "Task description is required".toList)]⟩
  else if jsonTruthy (dget ai_response "success") then
    let ticket_id := compute_ticket_id task
    let ticket_number := generate_ticket_number u
    let tags := listifyField (dget ai_response "suggested_labels")
    let access_required := listifyField (dget ai_response "required_access")
    let dependencies := listifyField (dget ai_response "dependencies")
    let title := choose_title (dget ai_response "title") task
    ⟨200, [("success", Json.bool true),
           ("ticket_id", Json.str ticket_id),
           ("ticket_number", Json.str ticket_number),
           ("task", Json.str task),
           ("title", Json.str title),
           ("estimate", Json.obj
             [("estimated_time", dgetD ai_response "estimated_time" (Json.str "Unknown".toList)),
              ("priority", dgetD ai_response "priority" (Json.str "Medium".toList)),
              ("complexity_level", dgetD ai_response "complexity_level" (Json.str "Medium".toList)),
              ("dependencies", dependencies),
              ("required_access", access_required),
              ("suggested_labels", tags),
              ("reasoning", dgetD ai_response "reasoning" (Json.str [] ))])]⟩
  else
    ⟨500, [("success", Json.bool false),
           ("error", dgetD ai_response "error" (Json.str "AI generation failed".toList))]⟩

/-! ## Derived definitions used by the specification statements -/

/-- The value transformation `_validate_and_format_response` performs at
each of the three array keys. -/
def wrapVal : Option Json → Option Json
  | some (Json.str s) => some (Json.arr [Json.str s])
  | v => v

/-- A model payload wrapped in a fence tagged `json`:
three backticks, the tag, a newline, the payload, a newline, three
backticks. -/
def fenceJson (s : PyStr) : PyStr := "```json\n".toList ++ s ++ "\n```".toList

/-- A model payload wrapped in an untagged fence. -/
def fencePlain (s : PyStr) : PyStr := "```\n".toList ++ s ++ "\n```".toList

/-- The schema fields every estimate result is expected to populate. -/
def schemaKeys : List String :=
  ["title", "estimated_time", "priority", "complexity_level",
   "dependencies", "required_access", "suggested_labels", "reasoning"]

/-- A complete fallback result: `success == false`, a non-empty
human-readable error string, and every schema field populated. -/
def completeFallbackResult (r : Dict) : Prop :=
  dget r "success" = some (Json.bool false)
  ∧ (∃ e, dget r "error" = some (Json.str e) ∧ e ≠ [])
  ∧ ∀ k ∈ schemaKeys, (dget r k).isSome = true

/-- Total time slept in a trace of effects. -/
def totalSleep : List Effect → Nat
  | [] => 0
  | Effect.sleep n :: rest => n + totalSleep rest
  | _ :: rest => totalSleep rest

/-! ## Helper lemmas: dictionaries -/

theorem dget_dset_self (d : Dict) (k : String) (v : Json) :
    dget (dset d k v) k = some v := by
  induction d with
  | nil => simp [dset, dget]
  | cons hd rest ih =>
    obtain ⟨k', w⟩ := hd
    by_cases h : k = k'
    · simp [dset, dget, h]
    · simp [dset, dget, h, ih]

theorem dget_dset_ne (d : Dict) (k k' : String) (v : Json) (h : k' ≠ k) :
    dget (dset d k v) k' = dget d k' := by
  induction d with
  | nil => simp [dset, dget, h]
  | cons hd rest ih =>
    obtain ⟨k'', w⟩ := hd
    by_cases h2 : k = k''
    · subst h2
      simp [dset, dget, h]
    · simp [dset, dget, h2, ih]

theorem dget_wrapIfStr_self (d : Dict) (k : String) :
    dget (wrapIfStr d k) k = wrapVal (dget d k) := by
  unfold wrapIfStr
  cases h : dget d k with
  | none => simp [wrapVal, h]
  | some j =>
    cases j with
    | str s => simp [wrapVal, dget_dset_self]
    | num n => simp [wrapVal, h]
    | bool b => simp [wrapVal, h]
    | null => simp [wrapVal, h]
    | arr l => simp [wrapVal, h]
    | obj l => simp [wrapVal, h]

theorem dget_wrapIfStr_ne (d : Dict) (k k' : String) (h : k' ≠ k) :
    dget (wrapIfStr d k) k' = dget d k' := by
  unfold wrapIfStr
  cases dget d k with
  | none => rfl
  | some j =>
    cases j with
    | str s => exact dget_dset_ne d k k' _ h
    | num n => rfl
    | bool b => rfl
    | null => rfl
    | arr l => rfl
    | obj l => rfl

/-! ## Helper lemmas: whitespace stripping -/

theorem pyStrip_cons_ws (c : Char) (s : PyStr) (h : pyIsSpace c = true) :
    pyStrip (c :: s) = pyStrip s := by
  simp [pyStrip, List.dropWhile_cons, h]

theorem pyStrip_concat_ws (c : Char) (s : PyStr) (h : pyIsSpace c = true) :
    pyStrip (s ++ [c]) = pyStrip s := by
  unfold pyStrip
  rw [List.dropWhile_append]
  by_cases he : (List.dropWhile pyIsSpace s).isEmpty = true
  · rw [if_pos he]
    simp only [List.isEmpty_iff] at he
    rw [he, List.rdropWhile_nil]
    simp [List.dropWhile_cons, h, List.rdropWhile_nil]
  · rw [if_neg he]
    exact List.rdropWhile_concat_pos pyIsSpace _ c h

/-! ## Helper lemmas: prefixes and suffixes -/

theorem isPrefixOf_append_self (p t : PyStr) : p.isPrefixOf (p ++ t) = true := by
  induction p with
  | nil => simp [List.isPrefixOf]
  | cons a as ih => simp [List.isPrefixOf, ih]

theorem isPrefixOf_append_cancel (p q t : PyStr) :
    (p ++ q).isPrefixOf (p ++ t) = q.isPrefixOf t := by
  induction p with
  | nil => rfl
  | cons a as ih => simp [List.isPrefixOf, ih]

theorem isPrefixOf_cons_false (p : PyStr) (b : Char) (t : PyStr)
    (hp : p ≠ []) (h : ∀ x ∈ p.head?, x ≠ b) : p.isPrefixOf (b :: t) = false := by
  cases p with
  | nil => exact absurd rfl hp
  | cons a as =>
    simp only [List.head?, Option.mem_def, Option.some.injEq, forall_eq'] at h
    have hb : (a == b) = false := beq_eq_false_iff_ne.mpr h
    simp [List.isPrefixOf, hb]

theorem isSuffixOf_append_self (p t : PyStr) : p.isSuffixOf (t ++ p) = true := by
  simp only [List.isSuffixOf, List.reverse_append]
  exact isPrefixOf_append_self p.reverse t.reverse

/-! ## Analysis of `_clean_response` (claim C7) -/

theorem clean_response_fenceJson (s : PyStr) :
    clean_response (fenceJson s) = pyStrip s := by
  have h8 : "```json\n".toList = "```json".toList ++ ['\n'] := by decide
  have h4 : "\n```".toList = ['\n'] ++ "```".toList := by decide
  have hfence : fenceJson s
      = "```json".toList ++ ('\n' :: ((s ++ ['\n']) ++ "```".toList)) := by
    simp [fenceJson, h8, h4]
  have hc1 : pyStartsWith (fenceJson s) "```json".toList = true := by
    rw [hfence]; exact isPrefixOf_append_self _ _
  have hd7 : pyDrop 7 (fenceJson s) = '\n' :: ((s ++ ['\n']) ++ "```".toList) := by
    rw [hfence]; exact List.drop_left' (by decide)
  have hc2 : pyStartsWith ('\n' :: ((s ++ ['\n']) ++ "```".toList)) "```".toList = false :=
    isPrefixOf_cons_false _ _ _ (by decide) (by decide)
  have hsplit : ('\n' :: ((s ++ ['\n']) ++ "```".toList))
      = ('\n' :: (s ++ ['\n'])) ++ "```".toList := by simp
  have hc3 : pyEndsWith ('\n' :: ((s ++ ['\n']) ++ "```".toList)) "```".toList = true := by
    rw [hsplit]; exact isSuffixOf_append_self _ _
  have hd3 : pyDropRight 3 ('\n' :: ((s ++ ['\n']) ++ "```".toList)) = '\n' :: (s ++ ['\n']) := by
    unfold pyDropRight
    rw [hsplit, show (('\n' :: (s ++ ['\n'])) ++ "```".toList).length - 3
        = ('\n' :: (s ++ ['\n'])).length by simp]
    exact List.take_left _ _
  simp only [clean_response, hc1, hd7, hc2, hc3, hd3, if_true, if_false,
    Bool.false_eq_true, eq_self_iff_true]
  rw [pyStrip_cons_ws _ _ (by decide)]
  exact pyStrip_concat_ws _ _ (by decide)

theorem clean_response_fencePlain (s : PyStr) :
    clean_response (fencePlain s) = pyStrip s := by
  have h4' : "```\n".toList = "```".toList ++ ['\n'] := by decide
  have h4 : "\n```".toList = ['\n'] ++ "```".toList := by decide
  have h7 : "```json".toList = "```".toList ++ "json".toList := by decide
  have hfence : fencePlain s
      = "```".toList ++ ('\n' :: ((s ++ ['\n']) ++ "```".toList)) := by
    simp [fencePlain, h4', h4]
  have hc1 : pyStartsWith (fencePlain s) "```json".toList = false := by
    unfold pyStartsWith
    rw [hfence, h7, isPrefixOf_append_cancel]
    exact isPrefixOf_cons_false _ _ _ (by decide) (by decide)
  have hc2 : pyStartsWith (fencePlain s) "```".toList = true := by
    rw [hfence]; exact isPrefixOf_append_self _ _
  have hd3' : pyDrop 3 (fencePlain s) = '\n' :: ((s ++ ['\n']) ++ "```".toList) := by
    rw [hfence]; exact List.drop_left' (by decide)
  have hsplit : ('\n' :: ((s ++ ['\n']) ++ "```".toList))
      = ('\n' :: (s ++ ['\n'])) ++ "```".toList := by simp
  have hc3 : pyEndsWith ('\n' :: ((s ++ ['\n']) ++ "```".toList)) "```".toList = true := by
    rw [hsplit]; exact isSuffixOf_append_self _ _
  have hd3 : pyDropRight 3 ('\n' :: ((s ++ ['\n']) ++ "```".toList)) = '\n' :: (s ++ ['\n']) := by
    unfold pyDropRight
    rw [hsplit, show (('\n' :: (s ++ ['\n'])) ++ "```".toList).length - 3
        = ('\n' :: (s ++ ['\n'])).length by simp]
    exact List.take_left _ _
  simp only [clean_response, hc1, hc2, hd3', hc3, hd3, if_true, if_false,
    Bool.false_eq_true, eq_self_iff_true]
  rw [pyStrip_cons_ws _ _ (by decide)]
  exact pyStrip_concat_ws _ _ (by decide)

theorem clean_response_unfenced (s : PyStr)
    (hpre : pyStartsWith s "```".toList = false)
    (hsuf : pyEndsWith s "```".toList = false) :
    clean_response s = pyStrip s := by
  have h7 : "```json".toList = "```".toList ++ "json".toList := by decide
  have hpre7 : pyStartsWith s "```json".toList = false := by
    by_contra hc
    simp only [Bool.not_eq_false] at hc
    unfold pyStartsWith at hc hpre
    obtain ⟨t, ht⟩ := List.isPrefixOf_iff_prefix.mp hc
    rw [← ht, h7] at hpre
    rw [show ("```".toList ++ "json".toList) ++ t
        = "```".toList ++ ("json".toList ++ t) by simp] at hpre
    rw [isPrefixOf_append_self] at hpre
    exact Bool.true_eq_false.mp hpre
  simp only [clean_response, hpre7, hpre, hsuf, if_false, Bool.false_eq_true]

/-- C7 counterexample: for the payload `"x```"` (which itself ends in a
triple backtick), cleaning the `json`-tagged fenced form yields `"x```"`
while cleaning the payload directly yields `"x"`, so the claimed
equation `clean(fence(s)) = clean(s)` fails: `_clean_response` also
strips a trailing fence from the unwrapped payload. -/
theorem c7_clean_fence_counterexample :
    clean_response (fenceJson "x```".toList) ≠ clean_response "x```".toList
    ∧ clean_response (fenceJson "x```".toList) = "x```".toList
    ∧ clean_response "x```".toList = "x".toList := by
  refine ⟨?_, by decide, by decide⟩
  decide

/-- C7 (amended): for every payload `s` that does not itself start or end
with a triple backtick, cleaning the fenced form (tagged `json` or
untagged) yields the same string as cleaning `s` itself (both equal `s`
stripped of surrounding whitespace); `_clean_response` strips only a
leading triple-backtick (optionally `json`-tagged) prefix and a trailing
triple-backtick suffix plus surrounding whitespace. -/
theorem c7_clean_fence_equiv (s : PyStr)
    (hpre : pyStartsWith s "```".toList = false)
    (hsuf : pyEndsWith s "```".toList = false) :
    clean_response (fenceJson s) = clean_response s
    ∧ clean_response (fencePlain s) = clean_response s
    ∧ clean_response s = pyStrip s := by
  have h := clean_response_unfenced s hpre hsuf
  exact ⟨by rw [clean_response_fenceJson, h], by rw [clean_response_fencePlain, h], h⟩

/-- Witness for C7: the amended equivalence at the concrete payload
`"null"`. -/
theorem c7_clean_fence_equiv_witness :
    pyStartsWith "null".toList "```".toList = false
    ∧ pyEndsWith "null".toList "```".toList = false
    ∧ (clean_response (fenceJson "null".toList) = clean_response "null".toList
       ∧ clean_response (fencePlain "null".toList) = clean_response "null".toList
       ∧ clean_response "null".toList = pyStrip "null".toList) :=
  ⟨by decide, by decide, c7_clean_fence_equiv "null".toList (by decide) (by decide)⟩

/-! ## Analysis of `_validate_and_format_response` (claim C2) -/

theorem dget_validate_array_key (d : Dict) (k : String)
    (hk : k = "required_access" ∨ k = "dependencies" ∨ k = "suggested_labels") :
    dget (validate_and_format_response d) k = wrapVal (dget d k) := by
  unfold validate_and_format_response
  rcases hk with rfl | rfl | rfl
  · rw [dget_wrapIfStr_ne _ _ _ (by decide), dget_wrapIfStr_ne _ _ _ (by decide),
      dget_wrapIfStr_self]
  · rw [dget_wrapIfStr_ne _ _ _ (by decide), dget_wrapIfStr_self,
      dget_wrapIfStr_ne _ _ _ (by decide)]
  · rw [dget_wrapIfStr_self, dget_wrapIfStr_ne _ _ _ (by decide),
      dget_wrapIfStr_ne _ _ _ (by decide)]

theorem dget_validate_other_key (d : Dict) (k : String)
    (h1 : k ≠ "required_access") (h2 : k ≠ "dependencies")
    (h3 : k ≠ "suggested_labels") :
    dget (validate_and_format_response d) k = dget d k := by
  unfold validate_and_format_response
  rw [dget_wrapIfStr_ne _ _ _ h3, dget_wrapIfStr_ne _ _ _ h2, dget_wrapIfStr_ne _ _ _ h1]

/-- C2 counterexample: the claim's final clause "in every result these
three fields, when present, are sequences" fails when the upstream
payload supplies a value that is neither a string nor a list: for the
parsed dict `{"required_access": 5}` the field is present in the result
but is not a sequence (the normalization passes non-strings through
untouched). -/
theorem c2_validate_non_sequence_counterexample :
    (dget (validate_and_format_response [("required_access", Json.num 5)])
        "required_access").isSome = true
    ∧ ∀ l, dget (validate_and_format_response [("required_access", Json.num 5)])
        "required_access" ≠ some (Json.arr l) := by
  refine ⟨rfl, ?_⟩
  intro l h
  rw [show dget (validate_and_format_response [("required_access", Json.num 5)])
      "required_access" = some (Json.num 5) from rfl] at h
  exact Json.noConfusion (Option.some.inj h)

/-- C2 (amended): `_validate_and_format_response` maps each of
`required_access`, `dependencies`, `suggested_labels` that is a bare
string to a one-element list, leaves each absent if absent and unchanged
if already a list (and, in general, unchanged whenever it is not a bare
string), and leaves the scalar fields `title`, `estimated_time`,
`priority`, `complexity_level`, `reasoning` unchanged; hence each of the
three fields, when present and supplied as a string or a list, is a
sequence in the result. -/
theorem c2_validate_normalizes (d : Dict) :
    (∀ k ∈ (["required_access", "dependencies", "suggested_labels"] : List String),
        dget (validate_and_format_response d) k = wrapVal (dget d k))
    ∧ (∀ k ∈ (["title", "estimated_time", "priority", "complexity_level",
        "reasoning"] : List String),
        dget (validate_and_format_response d) k = dget d k)
    ∧ (∀ k ∈ (["required_access", "dependencies", "suggested_labels"] : List String),
        ((∃ s, dget d k = some (Json.str s)) ∨ (∃ l, dget d k = some (Json.arr l))) →
        ∃ l, dget (validate_and_format_response d) k = some (Json.arr l)) := by
  have key : ∀ k ∈ (["required_access", "dependencies", "suggested_labels"] : List String),
      dget (validate_and_format_response d) k = wrapVal (dget d k) := by
    intro k hk
    apply dget_validate_array_key
    simpa using hk
  refine ⟨key, ?_, ?_⟩
  · intro k hk
    fin_cases hk <;> (apply dget_validate_other_key <;> decide)
  · intro k hk hv
    rw [key k hk]
    rcases hv with ⟨s, hs⟩ | ⟨l, hl⟩
    · exact ⟨[Json.str s], by rw [hs]; rfl⟩
    · exact ⟨l, by rw [hl]; rfl⟩

/-- Witness for C2: the amended normalization at the concrete parsed dict
`{"required_access": "Backend"}`. -/
theorem c2_validate_normalizes_witness :
    "required_access" ∈ (["required_access", "dependencies", "suggested_labels"] : List String)
    ∧ dget (validate_and_format_response [("required_access", Json.str "Backend".toList)])
        "required_access"
      = wrapVal (dget [("required_access", Json.str "Backend".toList)] "required_access") :=
  ⟨by decide, (c2_validate_normalizes _).1 "required_access" (by decide)⟩

/-! ## Fallback completeness (claims C8, C1, C10) -/

theorem fallback_complete (task : PyStr) (e : Option PyStr) (now : PyStr) :
    completeFallbackResult (get_fallback_response task e now) := by
  refine ⟨rfl, ?_, ?_⟩
  · cases e with
    | none => exact ⟨_, rfl, by decide⟩
    | some e' =>
      by_cases he : e'.isEmpty = true
      · refine ⟨"AI service temporarily unavailable".toList, ?_, by decide⟩
        simp only [get_fallback_response, dget]
        simp [he]
      · refine ⟨e', ?_, by simpa [List.isEmpty_iff] using he⟩
        simp only [get_fallback_response, dget]
        simp [he]
  · intro k hk
    fin_cases hk <;> rfl

/-- C8: two calls to `_get_fallback_response` with the same task text and
no error note produce identical dictionaries in every field except
`timestamp`; the result always has `success == false`,
`fallback == true`, and every schema field populated, for any task
text. -/
theorem c8_fallback_deterministic (task ts1 ts2 : PyStr) :
    (∀ k, k ≠ "timestamp" →
      dget (get_fallback_response task none ts1) k
        = dget (get_fallback_response task none ts2) k)
    ∧ dget (get_fallback_response task none ts1) "success" = some (Json.bool false)
    ∧ dget (get_fallback_response task none ts1) "fallback" = some (Json.bool true)
    ∧ ∀ k ∈ schemaKeys, (dget (get_fallback_response task none ts1) k).isSome = true := by
  refine ⟨?_, rfl, rfl, (fallback_complete task none ts1).2.2⟩
  intro k hk
  simp [get_fallback_response, dget, hk]

/-- Witness for C8: the `error` field (a non-timestamp field) of two
fallbacks for the same task at different times coincides. -/
theorem c8_fallback_deterministic_witness :
    ("error" : String) ≠ "timestamp"
    ∧ dget (get_fallback_response "Add dark mode".toList none "2026-01-01T00:00:00".toList) "error"
      = dget (get_fallback_response "Add dark mode".toList none "2026-02-02T00:00:00".toList) "error" :=
  ⟨by decide,
   (c8_fallback_deterministic "Add dark mode".toList "2026-01-01T00:00:00".toList
      "2026-02-02T00:00:00".toList).1 "error" (by decide)⟩

/-! ## Shape of `estimate_task` results (claims C1, C10) -/

/-- Every `estimate_task` result is either the success-path dict (the
normalized parsed fields with `success` forced to `true`) or a fallback
produced by `_get_fallback_response`. -/
theorem estimate_task_shape (available : Bool) (provider : Nat → ProviderResult)
    (parse : PyStr → Except PyStr Json) (now task : PyStr) :
    (∃ fields, (estimate_task available provider parse now task).1
        = dset (validate_and_format_response fields) "success" (Json.bool true))
    ∨ ∃ e, (estimate_task available provider parse now task).1
        = get_fallback_response task e now := by
  unfold estimate_task
  split
  · exact Or.inr ⟨none, rfl⟩
  · split
    · split
      · exact Or.inl ⟨_, rfl⟩
      · exact Or.inr ⟨some typeErrorNote, rfl⟩
      · rename_i je _
        exact Or.inr ⟨some ("JSON Parse Error: ".toList ++ je), rfl⟩
    · rename_i note effs _
      exact Or.inr ⟨some note, rfl⟩
    · exact Or.inr ⟨some unboundResponseNote, rfl⟩

/-- C1: for every non-empty task string (and any provider/parser/clock
behaviour), `estimate_task` totally evaluates to a dictionary (never an
exception, by totality of the embedding) that is either a success result
(`success == true`) or a complete fallback with `success == false`, a
non-empty error string, and every schema field (`title`,
`estimated_time`, `priority`, `complexity_level`, `dependencies`,
`required_access`, `suggested_labels`, `reasoning`) populated. -/
theorem c1_estimate_total (available : Bool) (provider : Nat → ProviderResult)
    (parse : PyStr → Except PyStr Json) (now task : PyStr) (htask : task ≠ []) :
    dget (estimate_task available provider parse now task).1 "success" = some (Json.bool true)
    ∨ (dget (estimate_task available provider parse now task).1 "success"
          = some (Json.bool false)
       ∧ (∃ e, dget (estimate_task available provider parse now task).1 "error"
            = some (Json.str e) ∧ e ≠ [])
       ∧ ∀ k ∈ schemaKeys,
          (dget (estimate_task available provider parse now task).1 k).isSome = true) := by
  rcases estimate_task_shape available provider parse now task with ⟨fields, hf⟩ | ⟨e, hf⟩
  · left; rw [hf]; exact dget_dset_self _ _ _
  · right; rw [hf]; exact fallback_complete task e now

/-- Witness for C1: the unavailable-service call on the task
`"Fix bug"`. -/
theorem c1_estimate_total_witness :
    "Fix bug".toList ≠ ([] : PyStr)
    ∧ (dget (estimate_task false (fun _ => ProviderResult.err [])
          (fun _ => Except.error []) [] "Fix bug".toList).1 "success"
        = some (Json.bool true)
      ∨ (dget (estimate_task false (fun _ => ProviderResult.err [])
            (fun _ => Except.error []) [] "Fix bug".toList).1 "success"
          = some (Json.bool false)
        ∧ (∃ e, dget (estimate_task false (fun _ => ProviderResult.err [])
              (fun _ => Except.error []) [] "Fix bug".toList).1 "error"
            = some (Json.str e) ∧ e ≠ [])
        ∧ ∀ k ∈ schemaKeys,
            (dget (estimate_task false (fun _ => ProviderResult.err [])
              (fun _ => Except.error []) [] "Fix bug".toList).1 k).isSome = true)) :=
  ⟨by decide,
   c1_estimate_total false (fun _ => ProviderResult.err []) (fun _ => Except.error [])
     [] "Fix bug".toList (by decide)⟩

/-- C10: every dictionary returned by `estimate_task` has a boolean
`success` key; the success path forces `success := true` (overriding any
`success` value the parsed model payload supplied); and `success ==
false` implies the keys `fallback` (`== true`), `error` (a non-empty
string) and `timestamp` are all present. -/
theorem c10_success_key_invariant (available : Bool) (provider : Nat → ProviderResult)
    (parse : PyStr → Except PyStr Json) (now task : PyStr) :
    (∃ b, dget (estimate_task available provider parse now task).1 "success"
        = some (Json.bool b))
    ∧ (dget (estimate_task available provider parse now task).1 "success"
          = some (Json.bool false) →
        dget (estimate_task available provider parse now task).1 "fallback"
            = some (Json.bool true)
        ∧ (∃ e, dget (estimate_task available provider parse now task).1 "error"
              = some (Json.str e) ∧ e ≠ [])
        ∧ (dget (estimate_task available provider parse now task).1 "timestamp").isSome
            = true)
    ∧ ∀ fields, dget (dset (validate_and_format_response fields) "success"
        (Json.bool true)) "success" = some (Json.bool true) := by
  rcases estimate_task_shape available provider parse now task with ⟨fields, hf⟩ | ⟨e, hf⟩
  · refine ⟨⟨true, by rw [hf]; exact dget_dset_self _ _ _⟩, ?_,
      fun f => dget_dset_self _ _ _⟩
    intro hfalse
    rw [hf, dget_dset_self] at hfalse
    simp at hfalse
  · refine ⟨⟨false, by rw [hf]; rfl⟩, ?_, fun f => dget_dset_self _ _ _⟩
    intro _
    rw [hf]
    exact ⟨rfl, (fallback_complete task e now).2.1, rfl⟩

/-- Witness for C10: the implication's hypothesis holds on the
unavailable-service path, where the fallback obligations are
discharged. -/
theorem c10_success_key_invariant_witness :
    dget (estimate_task false (fun _ => ProviderResult.err [])
        (fun _ => Except.error []) "2026-01-01T00:00:00".toList "t".toList).1 "success"
      = some (Json.bool false)
    ∧ (dget (estimate_task false (fun _ => ProviderResult.err [])
          (fun _ => Except.error []) "2026-01-01T00:00:00".toList "t".toList).1 "fallback"
        = some (Json.bool true)
      ∧ (∃ e, dget (estimate_task false (fun _ => ProviderResult.err [])
            (fun _ => Except.error []) "2026-01-01T00:00:00".toList "t".toList).1 "error"
          = some (Json.str e) ∧ e ≠ [])
      ∧ (dget (estimate_task false (fun _ => ProviderResult.err [])
            (fun _ => Except.error []) "2026-01-01T00:00:00".toList "t".toList).1
          "timestamp").isSome = true) :=
  ⟨rfl,
   (c10_success_key_invariant false (fun _ => ProviderResult.err [])
      (fun _ => Except.error []) "2026-01-01T00:00:00".toList "t".toList).2.1 rfl⟩

/-- C6: when no provider credential was configured (`available ==
false`), every `estimate_task` call returns the fallback immediately
with an empty effect trace — no prompt construction, no network attempt,
no sleep; and the constructor decides availability once: a missing or
empty `GEMINI_API_KEY` yields `available = false` regardless of
anything else (`estimate_task` consumes only that stored flag and never
re-probes). -/
theorem c6_unavailable_short_circuit (available : Bool) (h : available = false)
    (provider : Nat → ProviderResult) (parse : PyStr → Except PyStr Json)
    (now task : PyStr) :
    estimate_task available provider parse now task
      = (get_fallback_response task none now, [])
    ∧ ∀ ok : Bool, estimator_init none ok = false ∧ estimator_init (some []) ok = false := by
  subst h
  exact ⟨rfl, fun ok => ⟨rfl, rfl⟩⟩

/-- Witness for C6: the short circuit at a concrete call. -/
theorem c6_unavailable_short_circuit_witness :
    (false = false)
    ∧ (estimate_task false (fun _ => ProviderResult.ok "irrelevant".toList)
        (fun _ => Except.ok Json.null) "2026-01-01T00:00:00".toList "Ship it".toList
      = (get_fallback_response "Ship it".toList none "2026-01-01T00:00:00".toList, [])
    ∧ ∀ ok : Bool, estimator_init none ok = false ∧ estimator_init (some []) ok = false) :=
  ⟨rfl,
   c6_unavailable_short_circuit false rfl (fun _ => ProviderResult.ok "irrelevant".toList)
     (fun _ => Except.ok Json.null) "2026-01-01T00:00:00".toList "Ship it".toList⟩

/-! ## Retry and backoff (claim C3) -/

/-- C3: if the provider raises transient errors (`"503"`, `"UNAVAILABLE"`
or `"429"` in the text) on the first two attempts and succeeds on the
third, `estimate_task` returns the successful parsed result with no
fallback marker, having slept 2 time units before the second attempt and
4 before the third (total `base_delay + 2*base_delay = 6`); after three
transient failures it returns the fallback having slept the same two
delays; and on a non-transient error it falls back immediately with no
retry and no sleep. -/
theorem c3_retry_backoff (provider : Nat → ProviderResult)
    (parse : PyStr → Except PyStr Json) (now task : PyStr) :
    (∀ e0 e1 text fields,
      provider 0 = ProviderResult.err e0 → isTransient e0 = true →
      provider 1 = ProviderResult.err e1 → isTransient e1 = true →
      provider 2 = ProviderResult.ok text →
      parse (clean_response (pyStrip text)) = Except.ok (Json.obj fields) →
      estimate_task true provider parse now task
        = (dset (validate_and_format_response fields) "success" (Json.bool true),
           [Effect.promptBuilt, Effect.networkCall 0, Effect.sleep 2,
            Effect.networkCall 1, Effect.sleep 4, Effect.networkCall 2])
      ∧ (dget fields "fallback" = none →
          dget (estimate_task true provider parse now task).1 "fallback" = none)
      ∧ totalSleep (estimate_task true provider parse now task).2 = 2 + 2 * 2)
    ∧ (∀ e0 e1 e2,
      provider 0 = ProviderResult.err e0 → isTransient e0 = true →
      provider 1 = ProviderResult.err e1 → isTransient e1 = true →
      provider 2 = ProviderResult.err e2 → isTransient e2 = true →
      estimate_task true provider parse now task
        = (get_fallback_response task (some ("API Error: ".toList ++ e2)) now,
           [Effect.promptBuilt, Effect.networkCall 0, Effect.sleep 2,
            Effect.networkCall 1, Effect.sleep 4, Effect.networkCall 2]))
    ∧ (∀ e,
      provider 0 = ProviderResult.err e → isTransient e = false →
      estimate_task true provider parse now task
        = (get_fallback_response task (some ("API Error: ".toList ++ e)) now,
           [Effect.promptBuilt, Effect.networkCall 0])) := by
  refine ⟨?_, ?_, ?_⟩
  · intro e0 e1 text fields h0 ht0 h1 ht1 h2 hp
    have hloop : retryLoop provider 3 3 0 2
        = (LoopOutcome.gotResponse text,
           [Effect.networkCall 0, Effect.sleep 2, Effect.networkCall 1,
            Effect.sleep 4, Effect.networkCall 2]) := by
      simp [retryLoop, h0, ht0, h1, ht1, h2]
    have hmain : estimate_task true provider parse now task
        = (dset (validate_and_format_response fields) "success" (Json.bool true),
           [Effect.promptBuilt, Effect.networkCall 0, Effect.sleep 2,
            Effect.networkCall 1, Effect.sleep 4, Effect.networkCall 2]) := by
      simp [estimate_task, hloop, hp]
    refine ⟨hmain, ?_, ?_⟩
    · intro hnf
      rw [hmain]
      rw [show (dset (validate_and_format_response fields) "success" (Json.bool true),
          [Effect.promptBuilt, Effect.networkCall 0, Effect.sleep 2,
           Effect.networkCall 1, Effect.sleep 4, Effect.networkCall 2]).1
          = dset (validate_and_format_response fields) "success" (Json.bool true) from rfl]
      rw [dget_dset_ne _ _ _ _ (by decide),
        dget_validate_other_key _ _ (by decide) (by decide) (by decide)]
      exact hnf
    · rw [hmain]
      rfl
  · intro e0 e1 e2 h0 ht0 h1 ht1 h2 ht2
    have hloop : retryLoop provider 3 3 0 2
        = (LoopOutcome.returnFallback ("API Error: ".toList ++ e2),
           [Effect.networkCall 0, Effect.sleep 2, Effect.networkCall 1,
            Effect.sleep 4, Effect.networkCall 2]) := by
      simp [retryLoop, h0, ht0, h1, ht1, h2, ht2]
    simp [estimate_task, hloop]
  · intro e h0 ht
    have hloop : retryLoop provider 3 3 0 2
        = (LoopOutcome.returnFallback ("API Error: ".toList ++ e),
           [Effect.networkCall 0]) := by
      simp [retryLoop, h0, ht]
    simp [estimate_task, hloop]

/-- Witness for C3: concrete providers exercising the three retry
scenarios (transient-transient-success, three transient failures, and an
immediate non-transient failure). -/
theorem c3_retry_backoff_witness :
    (estimate_task true
        (fun n => if n = 0 then ProviderResult.err "503 UNAVAILABLE".toList
          else if n = 1 then ProviderResult.err "429 rate limited".toList
          else ProviderResult.ok "null".toList)
        (fun _ => Except.ok (Json.obj [])) [] "t".toList
      = (dset (validate_and_format_response []) "success" (Json.bool true),
         [Effect.promptBuilt, Effect.networkCall 0, Effect.sleep 2,
          Effect.networkCall 1, Effect.sleep 4, Effect.networkCall 2])
      ∧ (dget [] "fallback" = none →
          dget (estimate_task true
            (fun n => if n = 0 then ProviderResult.err "503 UNAVAILABLE".toList
              else if n = 1 then ProviderResult.err "429 rate limited".toList
              else ProviderResult.ok "null".toList)
            (fun _ => Except.ok (Json.obj [])) [] "t".toList).1 "fallback" = none)
      ∧ totalSleep (estimate_task true
            (fun n => if n = 0 then ProviderResult.err "503 UNAVAILABLE".toList
              else if n = 1 then ProviderResult.err "429 rate limited".toList
              else ProviderResult.ok "null".toList)
            (fun _ => Except.ok (Json.obj [])) [] "t".toList).2 = 2 + 2 * 2)
    ∧ estimate_task true (fun _ => ProviderResult.err "503".toList)
        (fun _ => Except.ok (Json.obj [])) [] "t".toList
      = (get_fallback_response "t".toList
          (some ("API Error: ".toList ++ "503".toList)) [],
         [Effect.promptBuilt, Effect.networkCall 0, Effect.sleep 2,
          Effect.networkCall 1, Effect.sleep 4, Effect.networkCall 2])
    ∧ estimate_task true (fun _ => ProviderResult.err "boom".toList)
        (fun _ => Except.ok (Json.obj [])) [] "t".toList
      = (get_fallback_response "t".toList
          (some ("API Error: ".toList ++ "boom".toList)) [],
         [Effect.promptBuilt, Effect.networkCall 0]) :=
  ⟨(c3_retry_backoff
      (fun n => if n = 0 then ProviderResult.err "503 UNAVAILABLE".toList
        else if n = 1 then ProviderResult.err "429 rate limited".toList
        else ProviderResult.ok "null".toList)
      (fun _ => Except.ok (Json.obj [])) [] "t".toList).1
      "503 UNAVAILABLE".toList "429 rate limited".toList "null".toList []
      rfl (by decide) rfl (by decide) rfl rfl,
   (c3_retry_backoff (fun _ => ProviderResult.err "503".toList)
      (fun _ => Except.ok (Json.obj [])) [] "t".toList).2.1
      "503".toList "503".toList "503".toList rfl (by decide) rfl (by decide) rfl (by decide),
   (c3_retry_backoff (fun _ => ProviderResult.err "boom".toList)
      (fun _ => Except.ok (Json.obj [])) [] "t".toList).2.2
      "boom".toList rfl (by decide)⟩

/-! ## Hex digest structure (claim C9) -/

theorem leBytes_length (w : Nat) : ∀ n, (leBytes n w).length = w := by
  induction w with
  | zero => intro n; rfl
  | succ w ih => intro n; simp [leBytes, ih]

theorem md5Digest_length (msg : List Nat) : (md5Digest msg).length = 16 := by
  simp [md5Digest, List.length_append, leBytes_length]

theorem hexOfBytes_length (l : List Nat) : (hexOfBytes l).length = 2 * l.length := by
  induction l with
  | nil => rfl
  | cons b rest ih => simp [hexOfBytes, ih]; ring

theorem hexChar_mem (n : Nat) : hexChar n ∈ "0123456789abcdef".toList := by
  unfold hexChar
  split <;> decide

theorem hexOfBytes_mem (l : List Nat) (c : Char) (h : c ∈ hexOfBytes l) :
    c ∈ "0123456789abcdef".toList := by
  induction l with
  | nil => simp [hexOfBytes] at h
  | cons b rest ih =>
    simp only [hexOfBytes, List.mem_cons] at h
    rcases h with rfl | rfl | h
    · exact hexChar_mem _
    · exact hexChar_mem _
    · exact ih h

theorem md5Hexdigest_length (s : PyStr) : (md5Hexdigest s).length = 32 := by
  simp [md5Hexdigest, hexOfBytes_length, md5Digest_length]

theorem compute_ticket_id_length (t : PyStr) : (compute_ticket_id t).length = 16 := by
  simp [compute_ticket_id, pyTake, List.length_take, md5Hexdigest_length]

theorem compute_ticket_id_hex (t : PyStr) (c : Char) (h : c ∈ compute_ticket_id t) :
    c ∈ "0123456789abcdef".toList := by
  unfold compute_ticket_id pyTake at h
  exact hexOfBytes_mem _ _ (List.mem_of_mem_take h)

theorem toUpper_hex_mem :
    ∀ c ∈ "0123456789abcdef".toList, Char.toUpper c ∈ "0123456789ABCDEF".toList := by
  decide

theorem toUpper_hex_inj :
    ∀ c ∈ "0123456789abcdef".toList, ∀ d ∈ "0123456789abcdef".toList,
      Char.toUpper c = Char.toUpper d → c = d := by
  decide

theorem map_toUpper_inj_on_hex : ∀ (l1 l2 : PyStr),
    (∀ c ∈ l1, c ∈ "0123456789abcdef".toList) →
    (∀ c ∈ l2, c ∈ "0123456789abcdef".toList) →
    l1.map Char.toUpper = l2.map Char.toUpper → l1 = l2 := by
  intro l1
  induction l1 with
  | nil =>
    intro l2 _ _ h
    cases l2 with
    | nil => rfl
    | cons b bs => simp at h
  | cons a as ih =>
    intro l2 h1 h2 h
    cases l2 with
    | nil => simp at h
    | cons b bs =>
      simp only [List.map_cons, List.cons.injEq] at h
      have ha : a = b := toUpper_hex_inj a (h1 a (by simp)) b (h2 b (by simp)) h.1
      have hrest : as = bs :=
        ih bs (fun c hc => h1 c (by simp [hc])) (fun c hc => h2 c (by simp [hc])) h.2
      rw [ha, hrest]

/-! ## `/api/estimate` success path (claims C9, C4, C5) -/

/-- The 200-response of the handler on a truthy `success` value, spelled
out. -/
theorem get_ai_estimate_success (task_raw : PyStr) (ai : Dict) (u : PyStr)
    (htask : (pyStrip task_raw).isEmpty = false)
    (hsucc : jsonTruthy (dget ai "success") = true) :
    get_ai_estimate task_raw ai u
      = ⟨200, [("success", Json.bool true),
               ("ticket_id", Json.str (compute_ticket_id (pyStrip task_raw))),
               ("ticket_number", Json.str (generate_ticket_number u)),
               ("task", Json.str (pyStrip task_raw)),
               ("title", Json.str (choose_title (dget ai "title") (pyStrip task_raw))),
               ("estimate", Json.obj
                 [("estimated_time", dgetD ai "estimated_time" (Json.str "Unknown".toList)),
                  ("priority", dgetD ai "priority" (Json.str "Medium".toList)),
                  ("complexity_level", dgetD ai "complexity_level" (Json.str "Medium".toList)),
                  ("dependencies", listifyField (dget ai "dependencies")),
                  ("required_access", listifyField (dget ai "required_access")),
                  ("suggested_labels", listifyField (dget ai "suggested_labels")),
                  ("reasoning", dgetD ai "reasoning" (Json.str []))])]⟩ := by
  simp [get_ai_estimate, htask, hsucc]

/-- C9: the `ticket_id` of the `/api/estimate` success response is a
deterministic function of the task text alone (identical across calls
with different per-call `uuid4` draws), is 16 lowercase-hex characters
of the MD5 hex digest; `ticket_number` is drawn freshly per call as
`TKT-` followed by the first 8 `uuid4` characters uppercased, hence 8
uppercase-hex characters, and distinct draws give distinct numbers. -/
theorem c9_ticket_id_deterministic (task_raw : PyStr) (ai : Dict) (u1 u2 : PyStr)
    (htask : (pyStrip task_raw).isEmpty = false)
    (hsucc : jsonTruthy (dget ai "success") = true) :
    dget (get_ai_estimate task_raw ai u1).body "ticket_id"
      = dget (get_ai_estimate task_raw ai u2).body "ticket_id"
    ∧ dget (get_ai_estimate task_raw ai u1).body "ticket_id"
      = some (Json.str (compute_ticket_id (pyStrip task_raw)))
    ∧ (∀ t, (compute_ticket_id t).length = 16)
    ∧ (∀ t, ∀ c ∈ compute_ticket_id t, c ∈ "0123456789abcdef".toList)
    ∧ dget (get_ai_estimate task_raw ai u1).body "ticket_number"
      = some (Json.str (generate_ticket_number u1))
    ∧ (∀ u, generate_ticket_number u = "TKT-".toList ++ (pyTake 8 u).map Char.toUpper)
    ∧ (∀ u, pyTake 4 (generate_ticket_number u) = "TKT-".toList)
    ∧ (∀ u, (∀ c ∈ pyTake 8 u, c ∈ "0123456789abcdef".toList) →
        ∀ c ∈ pyDrop 4 (generate_ticket_number u), c ∈ "0123456789ABCDEF".toList)
    ∧ (∀ u : PyStr, 8 ≤ u.length → (generate_ticket_number u).length = 12)
    ∧ (∀ v1 v2 : PyStr, (∀ c ∈ pyTake 8 v1, c ∈ "0123456789abcdef".toList) →
        (∀ c ∈ pyTake 8 v2, c ∈ "0123456789abcdef".toList) →
        pyTake 8 v1 ≠ pyTake 8 v2 →
        generate_ticket_number v1 ≠ generate_ticket_number v2) := by
  refine ⟨?_, ?_, compute_ticket_id_length, fun t c h => compute_ticket_id_hex t c h,
    ?_, fun u => rfl, ?_, ?_, ?_, ?_⟩
  · rw [get_ai_estimate_success task_raw ai u1 htask hsucc,
      get_ai_estimate_success task_raw ai u2 htask hsucc]
    rfl
  · rw [get_ai_estimate_success task_raw ai u1 htask hsucc]
    rfl
  · rw [get_ai_estimate_success task_raw ai u1 htask hsucc]
    rfl
  · intro u
    unfold generate_ticket_number pyTake
    exact List.take_left' (by decide)
  · intro u hu c hc
    unfold generate_ticket_number pyDrop at hc
    rw [List.drop_left' (by decide)] at hc
    obtain ⟨d, hd, rfl⟩ := List.mem_map.mp hc
    exact toUpper_hex_mem d (hu d hd)
  · intro u hu
    simp [generate_ticket_number, pyTake, List.length_append, List.length_take]
    omega
  · intro v1 v2 h1 h2 hne heq
    unfold generate_ticket_number at heq
    have := List.append_cancel_left heq
    exact hne (map_toUpper_inj_on_hex _ _ h1 h2 this)

/-- Witness for C9: two calls with the same task and different `uuid4`
draws produce the same `ticket_id`. -/
theorem c9_ticket_id_deterministic_witness :
    (pyStrip "Fix bug".toList).isEmpty = false
    ∧ jsonTruthy (dget [("success", Json.bool true)] "success") = true
    ∧ dget (get_ai_estimate "Fix bug".toList [("success", Json.bool true)]
        "aabbccdd-1122".toList).body "ticket_id"
      = dget (get_ai_estimate "Fix bug".toList [("success", Json.bool true)]
        "ffee0099-3344".toList).body "ticket_id" :=
  ⟨by decide, rfl,
   (c9_ticket_id_deterministic "Fix bug".toList [("success", Json.bool true)]
      "aabbccdd-1122".toList "ffee0099-3344".toList (by decide) rfl).1⟩

/-! ## Title derivation (claim C4) -/

/-- C4 counterexample: for the task
`"Fix login bug on mobile Safari for iOS 17 users"` with no
model-supplied title, the derived title is
`"Fix login bug on mobile safari"` — Python's `capitalize()` lowercases
the remainder, so the claimed `"Fix login bug on mobile Safari"` (case
of later words preserved) is wrong; and a model-supplied in-range title
carrying surrounding whitespace is not used verbatim (it is
stripped). -/
theorem c4_title_counterexample :
    choose_title none "Fix login bug on mobile Safari for iOS 17 users".toList
      ≠ "Fix login bug on mobile Safari".toList
    ∧ choose_title none "Fix login bug on mobile Safari for iOS 17 users".toList
      = "Fix login bug on mobile safari".toList
    ∧ choose_title (some (Json.str " Fix the bug ".toList)) "some task".toList
      ≠ " Fix the bug ".toList := ⟨by decide, by decide, by decide⟩

/-- C4 (amended): with no model-supplied title (or a non-string title, or
one whose word count is outside 3-6) the title is derived from the task
text: the first 6 whitespace-separated words joined by single spaces,
first character uppercased and all remaining characters lowercased
(Python `capitalize()`); for the example task this gives
`"Fix login bug on mobile safari"`.  A model-supplied string title with
word count between 3 and 6 inclusive is used stripped of surrounding
whitespace. -/
theorem c4_title_derivation :
    choose_title none "Fix login bug on mobile Safari for iOS 17 users".toList
      = "Fix login bug on mobile safari".toList
    ∧ (∀ t task, 3 ≤ (pySplit t).length → (pySplit t).length ≤ 6 →
        choose_title (some (Json.str t)) task = pyStrip t)
    ∧ (∀ t task, ((pySplit t).length < 3 ∨ 6 < (pySplit t).length) →
        choose_title (some (Json.str t)) task = generate_short_title task)
    ∧ (∀ task, choose_title none task = generate_short_title task)
    ∧ (∀ j task, (∀ t, j ≠ Json.str t) →
        choose_title (some j) task = generate_short_title task)
    ∧ (∀ task, task ≠ [] →
        generate_short_title task
          = pyCapitalize (pyJoinSpace
              ((pySplit (pyStrip (pyReplaceNewline task))).take 6)))
    ∧ (∀ c rest, pyCapitalize (c :: rest) = c.toUpper :: rest.map Char.toLower) := by
  refine ⟨by decide, ?_, ?_, fun task => rfl, ?_, ?_, fun c rest => rfl⟩
  · intro t task h3 h6
    simp only [choose_title]
    rw [if_pos ⟨h3, h6⟩]
  · intro t task h
    have hn : ¬(3 ≤ (pySplit t).length ∧ (pySplit t).length ≤ 6) := by omega
    simp only [choose_title]
    rw [if_neg hn]
  · intro j task hj
    cases j with
    | str t => exact absurd rfl (hj t)
    | num n => rfl
    | bool b => rfl
    | null => rfl
    | arr l => rfl
    | obj l => rfl
  · intro task htask
    unfold generate_short_title
    rw [if_neg (by simpa [List.isEmpty_iff] using htask)]

/-- Witness for C4: a 3-word model title is used stripped; a 2-word model
title falls back to the task derivation. -/
theorem c4_title_derivation_witness :
    (3 ≤ (pySplit " Fix the bug ".toList).length
      ∧ (pySplit " Fix the bug ".toList).length ≤ 6)
    ∧ choose_title (some (Json.str " Fix the bug ".toList)) "whatever task".toList
      = pyStrip " Fix the bug ".toList :=
  ⟨⟨by decide, by decide⟩,
   c4_title_derivation.2.1 " Fix the bug ".toList "whatever task".toList
     (by decide) (by decide)⟩

/-! ## Failure path of `/api/estimate` (claim C5) -/

/-- C5 counterexample: a failed estimate (the complete fallback dict,
with `success == false`) does NOT make the endpoint return the fallback
estimate content: the handler answers HTTP 500 with only `success` and
`error` in the body — no `title`, no `reasoning`, no estimate fields —
contradicting the claim that the preview content is still returned. -/
theorem c5_endpoint_counterexample :
    (get_ai_estimate "Add dark mode".toList
        (get_fallback_response "Add dark mode".toList none "2026-01-01T00:00:00".toList)
        "1b9d6bcdbbfd4b2d".toList).status = 500
    ∧ dget (get_ai_estimate "Add dark mode".toList
        (get_fallback_response "Add dark mode".toList none "2026-01-01T00:00:00".toList)
        "1b9d6bcdbbfd4b2d".toList).body "title" = none
    ∧ dget (get_ai_estimate "Add dark mode".toList
        (get_fallback_response "Add dark mode".toList none "2026-01-01T00:00:00".toList)
        "1b9d6bcdbbfd4b2d".toList).body "reasoning" = none
    ∧ dget (get_ai_estimate "Add dark mode".toList
        (get_fallback_response "Add dark mode".toList none "2026-01-01T00:00:00".toList)
        "1b9d6bcdbbfd4b2d".toList).body "estimated_time" = none :=
  ⟨rfl, rfl, rfl, rfl⟩

/-- C5 (amended): when the estimate for a non-empty task fails
(`success` falsy), the `/api/estimate` endpoint returns an HTTP 500
error response whose JSON body carries only `success = false` and the
estimate's error string (default `"AI generation failed"`), discarding
the fallback estimate content (no title, no reasoning). -/
theorem c5_endpoint_error_on_failure (task_raw : PyStr) (ai : Dict) (u : PyStr)
    (htask : (pyStrip task_raw).isEmpty = false)
    (hfail : jsonTruthy (dget ai "success") = false) :
    get_ai_estimate task_raw ai u
      = ⟨500, [("success", Json.bool false),
               ("error", dgetD ai "error" (Json.str "AI generation failed".toList))]⟩
    ∧ dget (get_ai_estimate task_raw ai u).body "title" = none
    ∧ dget (get_ai_estimate task_raw ai u).body "reasoning" = none := by
  have h : get_ai_estimate task_raw ai u
      = ⟨500, [("success", Json.bool false),
               ("error", dgetD ai "error" (Json.str "AI generation failed".toList))]⟩ := by
    simp [get_ai_estimate, htask, hfail]
  refine ⟨h, ?_, ?_⟩ <;> rw [h] <;> rfl

/-- Witness for C5: the failed estimate for the task `"Add dark mode"`
yields the 500 error response. -/
theorem c5_endpoint_error_on_failure_witness :
    (pyStrip "Add dark mode".toList).isEmpty = false
    ∧ jsonTruthy (dget (get_fallback_response "Add dark mode".toList none
        "2026-01-01T00:00:00".toList) "success") = false
    ∧ (get_ai_estimate "Add dark mode".toList
        (get_fallback_response "Add dark mode".toList none "2026-01-01T00:00:00".toList)
        "1b9d6bcdbbfd4b2d".toList
      = ⟨500, [("success", Json.bool false),
               ("error", dgetD (get_fallback_response "Add dark mode".toList none
                 "2026-01-01T00:00:00".toList) "error"
                 (Json.str "AI generation failed".toList))]⟩
    ∧ dget (get_ai_estimate "Add dark mode".toList
        (get_fallback_response "Add dark mode".toList none "2026-01-01T00:00:00".toList)
        "1b9d6bcdbbfd4b2d".toList).body "title" = none
    ∧ dget (get_ai_estimate "Add dark mode".toList
        (get_fallback_response "Add dark mode".toList none "2026-01-01T00:00:00".toList)
        "1b9d6bcdbbfd4b2d".toList).body "reasoning" = none) :=
  ⟨by decide, rfl,
   c5_endpoint_error_on_failure "Add dark mode".toList
     (get_fallback_response "Add dark mode".toList none "2026-01-01T00:00:00".toList)
     "1b9d6bcdbbfd4b2d".toList (by decide) rfl⟩
